import Mathlib

/-!
Verification of the container lifecycle driver and step pipeline of deber.

The Go sources under `pkg/docker` and `pkg/walking` are shallowly embedded:
each daemon interaction (container list, network inspect/connect/disconnect,
exec create/attach/inspect/resize, container stop) is represented by an
oracle value supplied as an argument (`Except GoError α` for a fallible
call), and each embedded function additionally returns the trace of calls
it issued, so that claims about which daemon calls happen (and in which
order) are statable.
-/

set_option autoImplicit false

deriving instance DecidableEq for Except

namespace Deber

/-- Errors, as Go `error` values.  The embedded code constructs exactly one
error itself (`errors.New("command exited with non-zero status")` in
`ContainerExec`, modelled as `commandExited`); every other error comes from
the daemon, the filesystem or the terminal, is supplied by the oracle as a
plain message string, and is propagated as `ext msg` — so an error value of
the shape `commandExited` can only originate in `ContainerExec` itself,
mirroring Go's identity semantics for `errors.New` values. -/
inductive GoError where
  | ext (msg : String)
  | commandExited
  deriving DecidableEq, Repr

/-- One entry of the daemon's container listing
(`types.Container`): its name list and its state string. -/
structure ContainerInfo where
  names : List String
  state : String
  deriving DecidableEq, Repr

/-- `ContainerStateRunning` from `pkg/docker/container.go`. -/
def ContainerStateRunning : String := "running"

/-- Body of the listing loop of `IsContainerCreated`: some container in the
listing has a name equal to `"/" ++ name`. -/
def containerCreatedIn (list : List ContainerInfo) (name : String) : Bool :=
  list.any fun c => c.names.any fun m => m == "/" ++ name

/-- Body of the listing loop of `IsContainerStarted`: some container in the
listing has a name equal to `"/" ++ name` and state `"running"`. -/
def containerStartedIn (list : List ContainerInfo) (name : String) : Bool :=
  list.any fun c => c.names.any fun m =>
    m == "/" ++ name && c.state == ContainerStateRunning

/-- `IsContainerCreated` (`pkg/docker/container.go:72`): lists all
containers and matches on exact name `"/" ++ name`.  A listing failure is
propagated. -/
def IsContainerCreated (listRes : Except String (List ContainerInfo))
    (name : String) : Except String Bool :=
  match listRes with
  | .error e => .error e
  | .ok list => .ok (containerCreatedIn list name)

/-- `IsContainerStarted` (`pkg/docker/container.go:91`): true iff some
container in the listing matches the name and has state `"running"`. -/
def IsContainerStarted (listRes : Except String (List ContainerInfo))
    (name : String) : Except String Bool :=
  match listRes with
  | .error e => .error e
  | .ok list => .ok (containerStartedIn list name)

/-- `IsContainerStopped` (`pkg/docker/container.go:112`): returns `false`
as soon as a container matching the name has state `"running"`, and `true`
after scanning the whole listing otherwise (so an absent container counts
as stopped). -/
def IsContainerStopped (listRes : Except String (List ContainerInfo))
    (name : String) : Except String Bool :=
  match listRes with
  | .error e => .error e
  | .ok list => .ok (!containerStartedIn list name)

/-- `types.ExecConfig` as populated by `ContainerExec`
(`pkg/docker/container.go:205`). -/
structure ExecConfig where
  cmd : List String
  workingDir : String
  attachStdin : Bool
  attachStdout : Bool
  attachStderr : Bool
  tty : Bool
  user : String
  deriving DecidableEq, Repr

/-- Events issued by the embedded functions: daemon API calls, plus the
terminal and stream actions of the interactive branch of `ContainerExec`.
Traces of these events let claims about *which* calls happen (and in which
order) be stated. -/
inductive Ev where
  | containerList
  | containerStop
  | inspect
  | netConnect
  | netDisconnect
  | execCreate (cfg : ExecConfig)
  | execAttach
  | makeRaw
  | restoreTerminal
  | execResize
  | resizeWatcherStart
  | stdinCopyStart
  | outputCopy
  | execInspect
  deriving DecidableEq, Repr

/-- `ContainerExecArgs` (`pkg/docker/container.go:60`). -/
structure ContainerExecArgs where
  interactive : Bool
  name : String
  cmd : String
  workDir : String
  asRoot : Bool
  skip : Bool
  network : Bool
  deriving DecidableEq, Repr

/-- Result of `ContainerNetwork`: the returned error value, the trace of
daemon calls it issued, and the container's network list afterwards (the
daemon effect of connect/disconnect, needed to chain two invocations). -/
structure NetResult where
  res : Except GoError Unit
  trace : List Ev
  networks : List String
  deriving Repr

/-- `ContainerNetwork` (`pkg/docker/container.go:314`): inspects the
container, scans its networks for `"bridge"`, then connects when attachment
is wanted but absent, disconnects when unwanted but present, and otherwise
does nothing.  `inspectRes` is the daemon's inspect answer (the container's
network names); `connectRes`/`disconnectRes` are the daemon's answers to
`NetworkConnect`/`NetworkDisconnect`.  The `networks` field models the
daemon's state after the call: connect adds `"bridge"`, disconnect removes
it, a failed call leaves it unchanged. -/
def ContainerNetwork (inspectRes : Except String (List String))
    (connectRes disconnectRes : Except String Unit)
    (wantConnected : Bool) : NetResult :=
  match inspectRes with
  | .error e => ⟨.error (.ext e), [.inspect], []⟩
  | .ok networks =>
    let gotConnected := networks.any fun net => net == "bridge"
    if wantConnected && !gotConnected then
      match connectRes with
      | .error e => ⟨.error (.ext e), [.inspect, .netConnect], networks⟩
      | .ok _ => ⟨.ok (), [.inspect, .netConnect], "bridge" :: networks⟩
    else if !wantConnected && gotConnected then
      match disconnectRes with
      | .error e => ⟨.error (.ext e), [.inspect, .netDisconnect], networks⟩
      | .ok _ =>
        ⟨.ok (), [.inspect, .netDisconnect], networks.filter fun net => net ≠ "bridge"⟩
    else ⟨.ok (), [.inspect], networks⟩

/-- The `types.ExecConfig` value built by `ContainerExec`
(`pkg/docker/container.go:205-228`): `Cmd` starts as `["bash"]`,
`User` is the Go zero value `""`, set to `"root"` when `AsRoot`, and a
non-empty command is appended as `["-c", cmd]`. -/
def execConfigFor (args : ContainerExecArgs) : ExecConfig :=
  let config : ExecConfig :=
    { cmd := ["bash"], workingDir := args.workDir,
      attachStdin := args.interactive, attachStdout := true,
      attachStderr := true, tty := true, user := "" }
  let config := if args.asRoot then { config with user := "root" } else config
  if args.cmd ≠ "" then { config with cmd := config.cmd ++ ["-c", args.cmd] }
  else config

/-- Daemon oracle for one `ContainerExec` invocation: the answers the
daemon would give to each call the function may issue. -/
structure ExecDaemon where
  inspectNetworks : Except String (List String)
  connectRes : Except String Unit
  disconnectRes : Except String Unit
  createRes : Except String String
  attachRes : Except String Unit
  resizeRes : Except String Unit
  inspectExitCode : Except String Int
  deriving Repr

/-- Host terminal oracle: whether stdin is a real terminal, the result of
putting it into raw mode, and the result of querying its window size. -/
structure Terminal where
  isTerminal : Bool
  makeRawRes : Except String Unit
  winSize : Except String (Nat × Nat)
  deriving Repr

/-- `ContainerExecResize` (`pkg/docker/container.go:293`): queries the host
window size and, if that succeeds, issues the daemon resize call. -/
def ContainerExecResize (winSize : Except String (Nat × Nat))
    (resizeRes : Except String Unit) : Except GoError Unit × List Ev :=
  match winSize with
  | .error e => (.error (.ext e), [])
  | .ok _ =>
    match resizeRes with
    | .error e => (.error (.ext e), [.execResize])
    | .ok _ => (.ok (), [.execResize])

/-- `ContainerExec` (`pkg/docker/container.go:204`), returning the Go error
value and the trace of calls issued, in order.  Faithful to the source:
the config is built first; `Skip` returns nil before anything runs;
`ContainerNetwork` runs before exec create/attach; the interactive branch
with a real terminal does raw mode, one resize, and starts the resize
watcher and the stdin copy; output copy always precedes the exit-code
inspection, which happens only when not interactive; the deferred
`RestoreTerminal` fires on every exit path after a successful `MakeRaw`. -/
def ContainerExec (d : ExecDaemon) (t : Terminal)
    (args : ContainerExecArgs) : Except GoError Unit × List Ev :=
  let config := execConfigFor args
  if args.skip then (.ok (), [])
  else
    let net := ContainerNetwork d.inspectNetworks d.connectRes d.disconnectRes
      args.network
    match net.res with
    | .error e => (.error e, net.trace)
    | .ok _ =>
      match d.createRes with
      | .error e => (.error (.ext e), net.trace ++ [.execCreate config])
      | .ok _ =>
        match d.attachRes with
        | .error e =>
          (.error (.ext e), net.trace ++ [.execCreate config, .execAttach])
        | .ok _ =>
          let base := net.trace ++ [.execCreate config, .execAttach]
          if args.interactive && t.isTerminal then
            match t.makeRawRes with
            | .error e => (.error (.ext e), base ++ [.makeRaw])
            | .ok _ =>
              match ContainerExecResize t.winSize d.resizeRes with
              | (.error e, rtr) =>
                (.error e, base ++ [.makeRaw] ++ rtr ++ [.restoreTerminal])
              | (.ok _, rtr) =>
                (.ok (), base ++ [.makeRaw] ++ rtr ++
                  [.resizeWatcherStart, .stdinCopyStart, .outputCopy,
                   .restoreTerminal])
          else
            let base2 := base ++ [.outputCopy]
            if args.interactive then (.ok (), base2)
            else
              match d.inspectExitCode with
              | .error e => (.error (.ext e), base2 ++ [.execInspect])
              | .ok code =>
                if code ≠ 0 then (.error .commandExited, base2 ++ [.execInspect])
                else (.ok (), base2 ++ [.execInspect])

/-- The three-outcome step contract of `pkg/stepping` as used by the
`walking` steps through `pkg/log`: `log.DoneE()` is `done`, `log.SkipE()`
is the distinguished skip sentinel `skipped`, `log.FailE(err)` is
`failed err`, and `os.Exit(0)` inside `Check` is `exitProcess 0`. -/
inductive StepOutcome where
  | done
  | skipped
  | failed (e : GoError)
  | exitProcess (code : Nat)
  deriving DecidableEq, Repr

/-- The `Stop` step function (`pkg/walking/stop.go:22`), returning its
outcome and the trace of daemon calls: probe `IsContainerStopped` (one
container listing); a probe failure is a step failure; if already stopped,
skip without calling `ContainerStop`; otherwise call `ContainerStop`
(answer supplied by `stopRes`) and report done or failed. -/
def Stop (listRes : Except String (List ContainerInfo))
    (stopRes : Except String Unit) (name : String) :
    StepOutcome × List Ev :=
  match IsContainerStopped listRes name with
  | .error e => (.failed (.ext e), [.containerList])
  | .ok true => (.skipped, [.containerList])
  | .ok false =>
    match stopRes with
    | .error e => (.failed (.ext e), [.containerList, .containerStop])
    | .ok _ => (.done, [.containerList, .containerStop])

/-- The file info returned by a successful `os.Stat`; `Check` only tests
it against nil, so its contents are irrelevant. -/
structure FileInfo where
  size : Nat
  deriving DecidableEq, Repr

/-- The `Check` step function (`pkg/walking/check.go:25`).  Its argument is
the pair returned by `os.Stat(name.ArchivePackageDir)`: the file info (nil
when the stat did not produce one) and the error, which the source discards
with `info, _ := os.Stat(...)`.  When info is non-nil the step calls
`os.Exit(0)`; otherwise it returns done. -/
def Check (statRes : Option FileInfo × Option String) : StepOutcome :=
  match statRes.1 with
  | some _ => .exitProcess 0
  | none => .done

/-- Result of running the whole pipeline process. -/
inductive ProcResult where
  | exited (code : Nat)
  | finished
  | halted (e : GoError)
  deriving DecidableEq, Repr

/-- Modelled from the spec: the step pipeline of `pkg/stepping` (not in
`src/`).  Per §4.5 of the spec, steps run strictly in order; `skipped` and
`done` both continue; the first `failed` stops the pipeline; a step calling
`os.Exit` terminates the whole process immediately, so no later step runs.
Each step is a name paired with its outcome; the second component of the
result lists the names of the steps that actually executed. -/
def runSteps : List (String × StepOutcome) → ProcResult × List String
  | [] => (.finished, [])
  | (n, o) :: rest =>
    match o with
    | .exitProcess code => (.exited code, [n])
    | .failed e => (.halted e, [n])
    | .done => ((runSteps rest).1, n :: (runSteps rest).2)
    | .skipped => ((runSteps rest).1, n :: (runSteps rest).2)

/-- C1: on one successful listing, `IsContainerStarted n = true` implies
`IsContainerStopped n = false`; and if no container matches `n`
(`IsContainerCreated n = false`) then `IsContainerStarted n = false` and
`IsContainerStopped n = true` (absent counts as stopped). -/
theorem started_stopped_exclusive (l : List ContainerInfo) (n : String) :
    (IsContainerStarted (.ok l) n = .ok true →
      IsContainerStopped (.ok l) n = .ok false) ∧
    (IsContainerCreated (.ok l) n = .ok false →
      IsContainerStarted (.ok l) n = .ok false ∧
      IsContainerStopped (.ok l) n = .ok true) := by
  constructor
  · intro h
    simp only [IsContainerStarted, Except.ok.injEq] at h
    simp [IsContainerStopped, h]
  · intro h
    simp only [IsContainerCreated, Except.ok.injEq] at h
    have hs : containerStartedIn l n = false := by
      simp only [containerCreatedIn, List.any_eq_false] at h
      simp only [containerStartedIn, List.any_eq_false]
      intro c hc
      have := h c hc
      simp only [List.any_eq_true, not_exists, not_and] at this ⊢
      intro m hm
      simp only [Bool.and_eq_true, beq_iff_eq]
      rintro ⟨h1, _⟩
      exact absurd (by simpa using h1) (by simpa using this m hm)
    constructor
    · simp [IsContainerStarted, hs]
    · simp [IsContainerStopped, hs]

/-- Witness for `started_stopped_exclusive`: a running container `"x"` is
started and not stopped; an absent name `"y"` is stopped. -/
theorem started_stopped_exclusive_witness :
    IsContainerStopped (.ok [⟨["/x"], "running"⟩]) "x" = .ok false ∧
    (IsContainerStarted (.ok ([] : List ContainerInfo)) "y" = .ok false ∧
     IsContainerStopped (.ok ([] : List ContainerInfo)) "y" = .ok true) :=
  ⟨(started_stopped_exclusive [⟨["/x"], "running"⟩] "x").1 (by decide),
   (started_stopped_exclusive [] "y").2 (by decide)⟩

/-- C5: a Skip-flagged exec returns nil immediately, with an empty call
trace — no network toggle, no exec create, no attach, no exit-code
inspection, no I/O. -/
theorem exec_skip_noop (d : ExecDaemon) (t : Terminal)
    (args : ContainerExecArgs) (h : args.skip = true) :
    ContainerExec d t args = (.ok (), []) := by
  simp [ContainerExec, h]

/-- Witness for `exec_skip_noop` at a concrete daemon, terminal and
argument record with the Skip flag set. -/
theorem exec_skip_noop_witness :
    ContainerExec ⟨.ok [], .ok (), .ok (), .ok "id", .ok (), .ok (), .ok 0⟩
      ⟨false, .ok (), .ok (80, 24)⟩
      ⟨false, "c", "ls", "/build", false, true, false⟩ = (.ok (), []) :=
  exec_skip_noop _ _ _ rfl

/-- C3: if the stat of the artifact path yields a file info, the check step
exits the process with code 0 and no later step of the pipeline runs; if
the stat yields no file info, the step returns done. -/
theorem check_short_circuits (info : Option FileInfo) (err : Option String)
    (post : List (String × StepOutcome)) :
    (info.isSome → Check (info, err) = .exitProcess 0 ∧
      runSteps (("check", Check (info, err)) :: post) = (.exited 0, ["check"])) ∧
    (info = none → Check (info, err) = .done) := by
  constructor
  · intro h
    obtain ⟨fi, rfl⟩ := Option.isSome_iff_exists.mp h
    exact ⟨rfl, rfl⟩
  · rintro rfl
    rfl

/-- Witness for `check_short_circuits`: with the artifact present the
pipeline never reaches a later "package" step; with it absent the step is
done. -/
theorem check_short_circuits_witness :
    (Check (some ⟨0⟩, none) = .exitProcess 0 ∧
      runSteps [("check", Check (some ⟨0⟩, none)), ("package", .done)] =
        (.exited 0, ["check"])) ∧
    Check (none, none) = .done :=
  ⟨(check_short_circuits (some ⟨0⟩) none [("package", .done)]).1 rfl,
   (check_short_circuits none none []).2 rfl⟩

/-- C9: the check step discards the stat error (`info, _ := os.Stat`):
whenever the stat yields no file info — whatever error accompanied it,
including permission or I/O errors — the step returns done, never failed,
and the pipeline proceeds to the remaining steps. -/
theorem check_discards_stat_error (e : String)
    (post : List (String × StepOutcome)) :
    Check (none, some e) = .done ∧
    runSteps (("check", Check (none, some e)) :: post) =
      ((runSteps post).1, "check" :: (runSteps post).2) :=
  ⟨rfl, rfl⟩

/-- C7: the stop step probes `IsContainerStopped` first: when the probe
(on a successful listing) reports the container stopped or absent, the
step is skipped and no `ContainerStop` call is issued; only when the
container is running is `ContainerStop` called, yielding done on success
and failed on a daemon error. -/
theorem stop_idempotent (l : List ContainerInfo)
    (stopRes : Except String Unit) (n : String) :
    (IsContainerStopped (.ok l) n = .ok true →
      Stop (.ok l) stopRes n = (.skipped, [.containerList])) ∧
    (IsContainerStopped (.ok l) n = .ok false →
      (stopRes = .ok () →
        Stop (.ok l) stopRes n = (.done, [.containerList, .containerStop])) ∧
      (∀ e, stopRes = .error e →
        Stop (.ok l) stopRes n =
          (.failed (.ext e), [.containerList, .containerStop]))) := by
  constructor
  · intro h
    simp [Stop, h]
  · intro h
    constructor
    · rintro rfl
      simp [Stop, h]
    · rintro e rfl
      simp [Stop, h]

/-- Witness for `stop_idempotent`: an absent container is skipped; a
running one is stopped (done on daemon success, failed on daemon error). -/
theorem stop_idempotent_witness :
    Stop (.ok ([] : List ContainerInfo)) (.ok ()) "x" =
      (.skipped, [.containerList]) ∧
    Stop (.ok [⟨["/x"], "running"⟩]) (.ok ()) "x" =
      (.done, [.containerList, .containerStop]) ∧
    Stop (.ok [⟨["/x"], "running"⟩]) (.error "boom") "x" =
      (.failed (.ext "boom"), [.containerList, .containerStop]) :=
  ⟨(stop_idempotent [] (.ok ()) "x").1 (by decide),
   ((stop_idempotent [⟨["/x"], "running"⟩] (.ok ()) "x").2 (by decide)).1 rfl,
   ((stop_idempotent [⟨["/x"], "running"⟩] (.error "boom") "x").2
      (by decide)).2 "boom" rfl⟩

/-- Number of connect/disconnect calls in a trace. -/
def netCallCount (tr : List Ev) : Nat :=
  (tr.filter fun ev => ev == Ev.netConnect || ev == Ev.netDisconnect).length

/-- On a successful inspect with successful connect/disconnect answers,
`ContainerNetwork` reduces to a three-way case split on the current
`"bridge"` attachment versus the desired one. -/
theorem containerNetwork_ok_eq (networks : List String) (want : Bool) :
    ContainerNetwork (.ok networks) (.ok ()) (.ok ()) want =
      if (networks.any fun net => net == "bridge") = want then
        ⟨.ok (), [.inspect], networks⟩
      else if want then
        ⟨.ok (), [.inspect, .netConnect], "bridge" :: networks⟩
      else
        ⟨.ok (), [.inspect, .netDisconnect],
          networks.filter fun net => net ≠ "bridge"⟩ := by
  rcases hb : networks.any fun net => net == "bridge" <;> rcases want <;>
    · simp only [ContainerNetwork]
      rw [hb]
      simp

/-- C4: `ContainerNetwork` is idempotent: if the container's attachment to
`"bridge"` already equals the desired state, the trace is the bare inspect
call — no connect, no disconnect; and two consecutive calls with the same
desired state (the second seeing the daemon state left by the first) issue
at most one connect/disconnect call in total. -/
theorem containerNetwork_idempotent (networks : List String) (want : Bool) :
    ((networks.any fun net => net == "bridge") = want →
      (ContainerNetwork (.ok networks) (.ok ()) (.ok ()) want).trace =
        [.inspect]) ∧
    netCallCount (ContainerNetwork (.ok networks) (.ok ()) (.ok ()) want).trace +
      netCallCount (ContainerNetwork
        (.ok (ContainerNetwork (.ok networks) (.ok ()) (.ok ()) want).networks)
        (.ok ()) (.ok ()) want).trace ≤ 1 := by
  have hfilter :
      ((networks.filter fun net => net ≠ "bridge").any fun net =>
        net == "bridge") = false := by
    simp only [List.any_eq_false]
    intro x hx
    rcases List.mem_filter.mp hx with ⟨_, hxne⟩
    simpa using hxne
  simp only [containerNetwork_ok_eq]
  rcases hb : networks.any fun net => net == "bridge" <;> rcases want <;>
    simp [hb, hfilter, netCallCount]

/-- Witness for `containerNetwork_idempotent`: a container already on
`"bridge"`, asked to be attached, gets a bare inspect. -/
theorem containerNetwork_idempotent_witness :
    (ContainerNetwork (.ok ["bridge"]) (.ok ()) (.ok ()) true).trace =
      [.inspect] :=
  (containerNetwork_idempotent ["bridge"] true).1 (by decide)

/-- Every trace of `ContainerNetwork` is the inspect call, possibly
followed by one connect or one disconnect. -/
theorem containerNetwork_trace_cases (i : Except String (List String))
    (c dc : Except String Unit) (w : Bool) :
    (ContainerNetwork i c dc w).trace = [.inspect] ∨
    (ContainerNetwork i c dc w).trace = [.inspect, .netConnect] ∨
    (ContainerNetwork i c dc w).trace = [.inspect, .netDisconnect] := by
  rcases i with e | networks
  · left; rfl
  · simp only [ContainerNetwork]
    split
    · rcases c with e | u <;> simp
    · split
      · rcases dc with e | u <;> simp
      · simp

/-- A `ContainerNetwork` failure is always an external (daemon) error. -/
theorem containerNetwork_res_cases (i : Except String (List String))
    (c dc : Except String Unit) (w : Bool) :
    (ContainerNetwork i c dc w).res = .ok () ∨
    ∃ m, (ContainerNetwork i c dc w).res = .error (.ext m) := by
  rcases i with e | networks
  · right; exact ⟨e, rfl⟩
  · simp only [ContainerNetwork]
    split
    · rcases c with e | u
      · right; exact ⟨e, rfl⟩
      · left; rfl
    · split
      · rcases dc with e | u
        · right; exact ⟨e, rfl⟩
        · left; rfl
      · left; rfl

/-- The exec-inspect call never occurs inside a `ContainerNetwork` trace. -/
theorem execInspect_not_mem_netTrace (i : Except String (List String))
    (c dc : Except String Unit) (w : Bool) :
    Ev.execInspect ∉ (ContainerNetwork i c dc w).trace := by
  rcases containerNetwork_trace_cases i c dc w with h | h | h <;> simp [h]

/-- The exec-create call never occurs inside a `ContainerNetwork` trace. -/
theorem execCreate_not_mem_netTrace (i : Except String (List String))
    (c dc : Except String Unit) (w : Bool) (cfg : ExecConfig) :
    Ev.execCreate cfg ∉ (ContainerNetwork i c dc w).trace := by
  rcases containerNetwork_trace_cases i c dc w with h | h | h <;> simp [h]

/-- C2: in batch mode (`Interactive` false, `Skip` false), once the network
toggle, exec create and exec attach succeed, the call trace ends with the
output copy followed by the exit-code inspection, and the result is nil
for exit code 0 and the command-failure error for a non-zero exit code.
In interactive mode the exit code is never inspected on any path and the
command-failure error is never produced. -/
theorem exec_exit_code (d : ExecDaemon) (t : Terminal)
    (args : ContainerExecArgs) :
    (args.skip = false → args.interactive = false →
      (ContainerNetwork d.inspectNetworks d.connectRes d.disconnectRes
        args.network).res = .ok () →
      ∀ execId, d.createRes = .ok execId → d.attachRes = .ok () →
        (ContainerExec d t args).2 =
          (ContainerNetwork d.inspectNetworks d.connectRes d.disconnectRes
            args.network).trace ++
            [.execCreate (execConfigFor args), .execAttach, .outputCopy,
             .execInspect] ∧
        (d.inspectExitCode = .ok 0 → (ContainerExec d t args).1 = .ok ()) ∧
        (∀ code, d.inspectExitCode = .ok code → code ≠ 0 →
          (ContainerExec d t args).1 = .error .commandExited)) ∧
    (args.interactive = true →
      Ev.execInspect ∉ (ContainerExec d t args).2 ∧
      (ContainerExec d t args).1 ≠ .error .commandExited) := by
  have hni := execInspect_not_mem_netTrace d.inspectNetworks d.connectRes
    d.disconnectRes args.network
  constructor
  · intro hskip hint hnet execId hcreate hattach
    refine ⟨?_, ?_, ?_⟩
    · rcases hins : d.inspectExitCode with e | code
      · simp [ContainerExec, hskip, hint, hnet, hcreate, hattach, hins]
      · by_cases hc0 : code = 0 <;>
          simp [ContainerExec, hskip, hint, hnet, hcreate, hattach, hins, hc0]
    · intro h0
      simp [ContainerExec, hskip, hint, hnet, hcreate, hattach, h0]
    · intro code hins hcne
      simp [ContainerExec, hskip, hint, hnet, hcreate, hattach, hins, hcne]
  · intro hint
    by_cases hskip : args.skip = true
    · simp [ContainerExec, hskip]
    · replace hskip : args.skip = false := by simpa using hskip
      rcases containerNetwork_res_cases d.inspectNetworks d.connectRes
        d.disconnectRes args.network with hnet | ⟨m, hnet⟩
      · rcases hcreate : d.createRes with e | execId
        · simp [ContainerExec, hskip, hnet, hcreate, hni]
        · rcases hattach : d.attachRes with e | u
          · simp [ContainerExec, hskip, hnet, hcreate, hattach, hni]
          · by_cases hterm : t.isTerminal = true
            · rcases hmr : t.makeRawRes with e | u
              · simp [ContainerExec, hskip, hint, hnet, hcreate, hattach,
                  hterm, hmr, hni]
              · rcases hws : t.winSize with e | sz
                · simp [ContainerExec, ContainerExecResize, hskip, hint,
                    hnet, hcreate, hattach, hterm, hmr, hws, hni]
                · rcases hrz : d.resizeRes with e | u
                  · simp [ContainerExec, ContainerExecResize, hskip, hint,
                      hnet, hcreate, hattach, hterm, hmr, hws, hrz, hni]
                  · simp [ContainerExec, ContainerExecResize, hskip, hint,
                      hnet, hcreate, hattach, hterm, hmr, hws, hrz, hni]
            · replace hterm : t.isTerminal = false := by simpa using hterm
              simp [ContainerExec, hskip, hint, hnet, hcreate, hattach,
                hterm, hni]
      · simp [ContainerExec, hskip, hnet, hni]

/-- Witness for `exec_exit_code`: exit code 7 in batch mode yields the
command-failure error, exit code 0 yields nil, and an interactive session
(here with exit code 7 available) never issues the inspect call. -/
theorem exec_exit_code_witness :
    (ContainerExec ⟨.ok [], .ok (), .ok (), .ok "id", .ok (), .ok (), .ok 7⟩
        ⟨false, .ok (), .ok (80, 24)⟩
        ⟨false, "c", "ls", "", false, false, false⟩).1 =
      .error .commandExited ∧
    (ContainerExec ⟨.ok [], .ok (), .ok (), .ok "id", .ok (), .ok (), .ok 0⟩
        ⟨false, .ok (), .ok (80, 24)⟩
        ⟨false, "c", "ls", "", false, false, false⟩).1 = .ok () ∧
    Ev.execInspect ∉
      (ContainerExec ⟨.ok [], .ok (), .ok (), .ok "id", .ok (), .ok (), .ok 7⟩
        ⟨false, .ok (), .ok (80, 24)⟩
        ⟨true, "c", "", "", false, false, false⟩).2 :=
  ⟨((exec_exit_code _ _ _).1 rfl rfl (by decide) "id" rfl rfl).2.2 7 rfl
      (by decide),
   ((exec_exit_code _ _ _).1 rfl rfl (by decide) "id" rfl rfl).2.1 rfl,
   ((exec_exit_code _ _ _).2 rfl).1⟩

/-- Any non-skipped `ContainerExec` trace starts with the full
`ContainerNetwork` trace, and every exec-create event in the remainder
carries exactly the config built from the arguments. -/
theorem exec_trace_shape (d : ExecDaemon) (t : Terminal)
    (args : ContainerExecArgs) (hskip : args.skip = false) :
    ∃ rest, (ContainerExec d t args).2 =
        (ContainerNetwork d.inspectNetworks d.connectRes d.disconnectRes
          args.network).trace ++ rest ∧
      ∀ cfg, Ev.execCreate cfg ∈ rest → cfg = execConfigFor args := by
  rcases containerNetwork_res_cases d.inspectNetworks d.connectRes
    d.disconnectRes args.network with hnet | ⟨m, hnet⟩
  · rcases hcreate : d.createRes with e | execId
    · refine ⟨[.execCreate (execConfigFor args)], ?_, ?_⟩
      · simp [ContainerExec, hskip, hnet, hcreate]
      · intro cfg h
        simpa using h
    · rcases hattach : d.attachRes with e | u
      · refine ⟨[.execCreate (execConfigFor args), .execAttach], ?_, ?_⟩
        · simp [ContainerExec, hskip, hnet, hcreate, hattach]
        · intro cfg h
          simpa using h
      · by_cases hint : args.interactive = true
        case neg =>
          replace hint : args.interactive = false := by simpa using hint
          refine ⟨[.execCreate (execConfigFor args), .execAttach,
            .outputCopy, .execInspect], ?_, ?_⟩
          · rcases hins : d.inspectExitCode with e | code
            · simp [ContainerExec, hskip, hnet, hcreate, hattach, hint, hins]
            · by_cases hc0 : code = 0 <;>
                simp [ContainerExec, hskip, hnet, hcreate, hattach, hint,
                  hins, hc0]
          · intro cfg h
            simpa using h
        case pos =>
          by_cases hterm : t.isTerminal = true
          case neg =>
            replace hterm : t.isTerminal = false := by simpa using hterm
            refine ⟨[.execCreate (execConfigFor args), .execAttach,
              .outputCopy], ?_, ?_⟩
            · simp [ContainerExec, hskip, hnet, hcreate, hattach, hint, hterm]
            · intro cfg h
              simpa using h
          case pos =>
          rcases hmr : t.makeRawRes with e | u
          · refine ⟨[.execCreate (execConfigFor args), .execAttach, .makeRaw],
              ?_, ?_⟩
            · simp [ContainerExec, hskip, hnet, hcreate, hattach, hint,
                hterm, hmr]
            · intro cfg h
              simpa using h
          · rcases hws : t.winSize with e | sz
            · refine ⟨[.execCreate (execConfigFor args), .execAttach, .makeRaw,
                .restoreTerminal], ?_, ?_⟩
              · simp [ContainerExec, ContainerExecResize, hskip, hnet,
                  hcreate, hattach, hint, hterm, hmr, hws]
              · intro cfg h
                simpa using h
            · rcases hrz : d.resizeRes with e | u
              · refine ⟨[.execCreate (execConfigFor args), .execAttach,
                  .makeRaw, .execResize, .restoreTerminal], ?_, ?_⟩
                · simp [ContainerExec, ContainerExecResize, hskip, hnet,
                    hcreate, hattach, hint, hterm, hmr, hws, hrz]
                · intro cfg h
                  simpa using h
              · refine ⟨[.execCreate (execConfigFor args), .execAttach,
                  .makeRaw, .execResize, .resizeWatcherStart, .stdinCopyStart,
                  .outputCopy, .restoreTerminal], ?_, ?_⟩
                · simp [ContainerExec, ContainerExecResize, hskip, hnet,
                    hcreate, hattach, hint, hterm, hmr, hws, hrz]
                · intro cfg h
                  simpa using h
  · refine ⟨[], ?_, ?_⟩
    · simp [ContainerExec, hskip, hnet]
    · intro cfg h
      simp at h

/-- C6: when the Skip flag is unset, `ContainerExec` applies the network
posture first: its trace begins with the whole `ContainerNetwork` trace,
and if the network toggle fails, the function returns that error with the
network-toggle trace alone — in particular no exec-create call is ever
issued. -/
theorem exec_network_first (d : ExecDaemon) (t : Terminal)
    (args : ContainerExecArgs) (hskip : args.skip = false) :
    (∃ rest, (ContainerExec d t args).2 =
      (ContainerNetwork d.inspectNetworks d.connectRes d.disconnectRes
        args.network).trace ++ rest) ∧
    (∀ e, (ContainerNetwork d.inspectNetworks d.connectRes d.disconnectRes
        args.network).res = .error e →
      ContainerExec d t args = (.error e,
        (ContainerNetwork d.inspectNetworks d.connectRes d.disconnectRes
          args.network).trace) ∧
      ∀ cfg, Ev.execCreate cfg ∉ (ContainerExec d t args).2) := by
  obtain ⟨rest, hr, -⟩ := exec_trace_shape d t args hskip
  refine ⟨⟨rest, hr⟩, ?_⟩
  intro e hnet
  have hEq : ContainerExec d t args = (.error e,
      (ContainerNetwork d.inspectNetworks d.connectRes d.disconnectRes
        args.network).trace) := by
    simp [ContainerExec, hskip, hnet]
  refine ⟨hEq, ?_⟩
  intro cfg h
  rw [hEq] at h
  exact execCreate_not_mem_netTrace _ _ _ _ cfg h

/-- Witness for `exec_network_first`: with an unreachable daemon the exec
is never created; with a healthy daemon the trace starts with the
network-inspect call. -/
theorem exec_network_first_witness :
    (∃ rest,
      (ContainerExec ⟨.ok [], .ok (), .ok (), .ok "id", .ok (), .ok (), .ok 0⟩
        ⟨false, .ok (), .ok (80, 24)⟩
        ⟨false, "c", "ls", "", false, false, false⟩).2 = [.inspect] ++ rest) ∧
    ContainerExec ⟨.error "daemon down", .ok (), .ok (), .ok "id", .ok (),
        .ok (), .ok 0⟩
      ⟨false, .ok (), .ok (80, 24)⟩
      ⟨false, "c", "ls", "", false, false, false⟩ =
      (.error (.ext "daemon down"), [.inspect]) :=
  ⟨(exec_network_first
      ⟨.ok [], .ok (), .ok (), .ok "id", .ok (), .ok (), .ok 0⟩
      ⟨false, .ok (), .ok (80, 24)⟩
      ⟨false, "c", "ls", "", false, false, false⟩ rfl).1,
   ((exec_network_first
      ⟨.error "daemon down", .ok (), .ok (), .ok "id", .ok (), .ok (), .ok 0⟩
      ⟨false, .ok (), .ok (80, 24)⟩
      ⟨false, "c", "ls", "", false, false, false⟩ rfl).2
      (.ext "daemon down") rfl).1⟩

/-- C8: the executed argument vector is the shell wrapper — `["bash"]` for
an empty command and `["bash", "-c", cmd]` otherwise — the exec user is
`"root"` exactly when `AsRoot` is set and empty otherwise, and every
exec-create call issued by `ContainerExec` carries exactly this config. -/
theorem exec_config_shell_wrapper (args : ContainerExecArgs) :
    ((execConfigFor args).cmd =
      if args.cmd = "" then ["bash"] else ["bash", "-c", args.cmd]) ∧
    ((execConfigFor args).user = if args.asRoot then "root" else "") ∧
    (∀ d t cfg, Ev.execCreate cfg ∈ (ContainerExec d t args).2 →
      cfg = execConfigFor args) := by
  refine ⟨?_, ?_, ?_⟩
  · rcases hroot : args.asRoot <;> by_cases hcmd : args.cmd = "" <;>
      simp [execConfigFor, hroot, hcmd]
  · rcases hroot : args.asRoot <;> by_cases hcmd : args.cmd = "" <;>
      simp [execConfigFor, hroot, hcmd]
  · intro d t cfg hmem
    by_cases hskip : args.skip = true
    · simp [ContainerExec, hskip] at hmem
    · replace hskip : args.skip = false := by simpa using hskip
      obtain ⟨rest, hr, hprop⟩ := exec_trace_shape d t args hskip
      rw [hr] at hmem
      rcases List.mem_append.mp hmem with h | h
      · exact absurd h (execCreate_not_mem_netTrace _ _ _ _ cfg)
      · exact hprop cfg h

/-- Witness for `exec_config_shell_wrapper`: a concrete run whose
exec-create call carries `["bash", "-c", "ls"]` and the empty user. -/
theorem exec_config_shell_wrapper_witness :
    (⟨["bash", "-c", "ls"], "/build", false, true, true, true, ""⟩ :
        ExecConfig) =
      execConfigFor ⟨false, "c", "ls", "/build", false, false, false⟩ :=
  (exec_config_shell_wrapper ⟨false, "c", "ls", "/build", false, false,
      false⟩).2.2
    ⟨.ok [], .ok (), .ok (), .ok "id", .ok (), .ok (), .ok 0⟩
    ⟨false, .ok (), .ok (80, 24)⟩
    ⟨["bash", "-c", "ls"], "/build", false, true, true, true, ""⟩
    (by decide)

/-- C10: an interactive exec whose host stdin is not a terminal degrades
to plain output copying — no raw mode, no resize, no stdin forwarding —
and (because the Interactive flag is set) the exit code is still never
inspected and the result is nil, whatever exit code the daemon would have
reported. -/
theorem exec_interactive_no_tty (d : ExecDaemon) (t : Terminal)
    (args : ContainerExecArgs) (execId : String)
    (hint : args.interactive = true) (hterm : t.isTerminal = false)
    (hskip : args.skip = false)
    (hnet : (ContainerNetwork d.inspectNetworks d.connectRes d.disconnectRes
      args.network).res = .ok ())
    (hcreate : d.createRes = .ok execId) (hattach : d.attachRes = .ok ()) :
    ContainerExec d t args = (.ok (),
      (ContainerNetwork d.inspectNetworks d.connectRes d.disconnectRes
        args.network).trace ++
        [.execCreate (execConfigFor args), .execAttach, .outputCopy]) ∧
    Ev.makeRaw ∉ (ContainerExec d t args).2 ∧
    Ev.execResize ∉ (ContainerExec d t args).2 ∧
    Ev.stdinCopyStart ∉ (ContainerExec d t args).2 ∧
    Ev.execInspect ∉ (ContainerExec d t args).2 := by
  have hEq : ContainerExec d t args = (.ok (),
      (ContainerNetwork d.inspectNetworks d.connectRes d.disconnectRes
        args.network).trace ++
        [.execCreate (execConfigFor args), .execAttach, .outputCopy]) := by
    simp [ContainerExec, hskip, hint, hterm, hnet, hcreate, hattach]
  refine ⟨hEq, ?_, ?_, ?_, ?_⟩ <;>
    · rw [hEq]
      rcases containerNetwork_trace_cases d.inspectNetworks d.connectRes
        d.disconnectRes args.network with h | h | h <;> simp [h]

/-- Witness for `exec_interactive_no_tty`: an interactive exec with a
non-terminal stdin and exit code 7 available still returns nil, with the
batch-like trace. -/
theorem exec_interactive_no_tty_witness :
    ContainerExec ⟨.ok [], .ok (), .ok (), .ok "id", .ok (), .ok (), .ok 7⟩
      ⟨false, .ok (), .ok (80, 24)⟩
      ⟨true, "c", "ls", "", false, false, false⟩ =
      (.ok (), [.inspect, .execCreate (execConfigFor
        ⟨true, "c", "ls", "", false, false, false⟩), .execAttach,
        .outputCopy]) :=
  (exec_interactive_no_tty _ _ _ "id" rfl rfl rfl (by decide) rfl rfl).1

end Deber
